import Mathlib

set_option maxRecDepth 8000

/-!
Shallow embedding of the field-hospital doctrine engine
(`doctrine_service_medical.py`) and of the local ranking fallback heuristic
(`medevai_api.py`).

Modelling conventions:
* Python floats are modelled as exact rationals (`ℚ`); every numeric literal
  in the source is a small decimal, so the rational model matches the float
  computation exactly on the magnitudes that occur.
* Python `dict`s are modelled as association lists in insertion order;
  `d.get(k, default)` is `dictGetD`, `d[k] = v` is `dictSet` (update in
  place when the key exists, append otherwise), exactly mirroring CPython
  dict semantics for string keys.
* String interpolation of numbers (Python f-strings, including the
  one-decimal float format) is rendered with `toString`; the exact text
  rendering is immaterial to every property proved below (no theorem
  inspects the interior of a rationale string).
* Fallible Python code (division that can raise `ZeroDivisionError`) is
  modelled with `Option`: `none` models the exception propagating.
-/

inductive Severity where
  | CRITICAL
  | URGENT
  | DELAYED
  | MINIMAL
  | EXPECTANT
deriving DecidableEq

structure Casualty where
  severity : Severity
  injuries : List String
  survival_probability : ℚ
deriving DecidableEq

/-- Model of `Scenario` from `doctrine_service_medical.py` (equipment_inventory is a
`Dict[str, int]`, modelled as an insertion-ordered association list). -/
structure Scenario where
  casualties : List Casualty
  equipment_inventory : List (String × Int)
  hours_until_resupply : ℚ
  expected_incoming_casualties : Int
  medevac_available : Bool
  surgical_capability : Bool
deriving DecidableEq

/-- Model of `ProtocolAllocation`: four per-tier lists of (item, quantity, cost). -/
structure ProtocolAllocation where
  equipment_per_critical : List (String × Nat × ℚ)
  equipment_per_urgent : List (String × Nat × ℚ)
  equipment_per_delayed : List (String × Nat × ℚ)
  equipment_per_minimal : List (String × Nat × ℚ)
  rationale : String
deriving DecidableEq

structure MedicalStrategy where
  name : String
  description : String
  protocol : ProtocolAllocation
  total_cost : ℚ
  estimated_survival_rate : ℚ
  equipment_preserved : List (String × Int)
  rationale : String
deriving DecidableEq

/-- Model of `FieldHospitalDoctrine.EQUIPMENT_COSTS` (USD, 2024 estimates).
Items absent from the table are never looked up by the source; the catch-all
returns 0 and is unreachable from the doctrine code. -/
def EQUIPMENT_COSTS : String → ℚ
  | "tourniquet" => 30
  | "hemostatic_gauze" => 45
  | "pressure_bandage" => 15
  | "nasopharyngeal_airway" => 8
  | "cricothyrotomy_kit" => 150
  | "endotracheal_tube" => 12
  | "chest_seal" => 25
  | "needle_decompression" => 12
  | "ventilator" => 25000
  | "iv_fluid_1L" => 50
  | "blood_unit_O_neg" => 500
  | "blood_unit_type_specific" => 450
  | "surgical_pack_trauma" => 3000
  | "anesthesia_kit" => 500
  | "suture_kit" => 150
  | "antibiotics_broad_spectrum" => 200
  | "morphine_dose" => 15
  | "tranexamic_acid" => 80
  | "epinephrine" => 25
  | "pulse_oximeter" => 150
  | "bp_cuff" => 45
  | _ => 0

/-- Python `d.get(k, default)` on an insertion-ordered association list. -/
def dictGetD {α : Type} (m : List (String × α)) (k : String) (d : α) : α :=
  match m with
  | [] => d
  | (k2, v) :: rest => if k2 = k then v else dictGetD rest k d

/-- Python `d[k] = v`: overwrite in place when the key exists, append
otherwise. -/
def dictSet {α : Type} (m : List (String × α)) (k : String) (v : α) :
    List (String × α) :=
  match m with
  | [] => [(k, v)]
  | (k2, v2) :: rest =>
    if k2 = k then (k2, v) :: rest else (k2, v2) :: dictSet rest k v

/-- Model of `FieldHospitalDoctrine._calculate_protocol_cost`: total cost of a
protocol across all patients (`total += cost * tier_count` per triple). -/
def calculate_protocol_cost (p : ProtocolAllocation)
    (critical urgent delayed minimal : Nat) : ℚ :=
  let t0 : ℚ := 0
  let t1 := p.equipment_per_critical.foldl
    (fun acc t => acc + t.2.2 * (critical : ℚ)) t0
  let t2 := p.equipment_per_urgent.foldl
    (fun acc t => acc + t.2.2 * (urgent : ℚ)) t1
  let t3 := p.equipment_per_delayed.foldl
    (fun acc t => acc + t.2.2 * (delayed : ℚ)) t2
  let t4 := p.equipment_per_minimal.foldl
    (fun acc t => acc + t.2.2 * (minimal : ℚ)) t3
  t4

/-- Model of `FieldHospitalDoctrine._calculate_equipment_used`: per-item consumption,
built by `equipment_used[item] = equipment_used.get(item, 0) + qty * count`
over the four tier lists in order. -/
def calculate_equipment_used (p : ProtocolAllocation)
    (critical urgent delayed minimal : Nat) : List (String × Nat) :=
  let e0 : List (String × Nat) := []
  let e1 := p.equipment_per_critical.foldl
    (fun acc t => dictSet acc t.1 (dictGetD acc t.1 0 + t.2.1 * critical)) e0
  let e2 := p.equipment_per_urgent.foldl
    (fun acc t => dictSet acc t.1 (dictGetD acc t.1 0 + t.2.1 * urgent)) e1
  let e3 := p.equipment_per_delayed.foldl
    (fun acc t => dictSet acc t.1 (dictGetD acc t.1 0 + t.2.1 * delayed)) e2
  let e4 := p.equipment_per_minimal.foldl
    (fun acc t => dictSet acc t.1 (dictGetD acc t.1 0 + t.2.1 * minimal)) e3
  e4

/-- The dict comprehension shared verbatim by all six doctrine generators:
`{k: inventory.get(k, 0) - equipment_used.get(k, 0) for k in inventory.keys()}`. -/
def equipment_preserved_map (inv : List (String × Int))
    (used : List (String × Nat)) : List (String × Int) :=
  inv.map (fun kv =>
    (kv.1, dictGetD inv kv.1 0 - ((dictGetD used kv.1 0 : ℕ) : Int)))

/-! ### Doctrine 1: MARCH Protocol - Immediate Intervention
(`FieldHospitalDoctrine._doctrine_march_immediate`) -/

def march_critical_equipment : List (String × Nat × ℚ) :=
  [("tourniquet", 2, EQUIPMENT_COSTS "tourniquet" * 2),
   ("hemostatic_gauze", 4, EQUIPMENT_COSTS "hemostatic_gauze" * 4),
   ("chest_seal", 1, EQUIPMENT_COSTS "chest_seal"),
   ("needle_decompression", 1, EQUIPMENT_COSTS "needle_decompression"),
   ("nasopharyngeal_airway", 1, EQUIPMENT_COSTS "nasopharyngeal_airway"),
   ("iv_fluid_1L", 2, EQUIPMENT_COSTS "iv_fluid_1L" * 2),
   ("blood_unit_O_neg", 3, EQUIPMENT_COSTS "blood_unit_O_neg" * 3),
   ("tranexamic_acid", 1, EQUIPMENT_COSTS "tranexamic_acid"),
   ("morphine_dose", 2, EQUIPMENT_COSTS "morphine_dose" * 2)]

def march_urgent_equipment : List (String × Nat × ℚ) :=
  [("tourniquet", 1, EQUIPMENT_COSTS "tourniquet"),
   ("pressure_bandage", 2, EQUIPMENT_COSTS "pressure_bandage" * 2),
   ("iv_fluid_1L", 2, EQUIPMENT_COSTS "iv_fluid_1L" * 2),
   ("morphine_dose", 2, EQUIPMENT_COSTS "morphine_dose" * 2),
   ("antibiotics_broad_spectrum", 1, EQUIPMENT_COSTS "antibiotics_broad_spectrum")]

def march_delayed_equipment : List (String × Nat × ℚ) :=
  [("antibiotics_broad_spectrum", 1, EQUIPMENT_COSTS "antibiotics_broad_spectrum"),
   ("morphine_dose", 1, EQUIPMENT_COSTS "morphine_dose")]

def march_minimal_equipment : List (String × Nat × ℚ) :=
  [("morphine_dose", 1, EQUIPMENT_COSTS "morphine_dose")]

def march_protocol : ProtocolAllocation :=
  { equipment_per_critical := march_critical_equipment
    equipment_per_urgent := march_urgent_equipment
    equipment_per_delayed := march_delayed_equipment
    equipment_per_minimal := march_minimal_equipment
    rationale := "MARCH protocol: immediate hemorrhage control, airway, breathing" }

def doctrine_march_immediate (s : Scenario) (critical urgent delayed minimal : Nat) :
    MedicalStrategy :=
  let protocol := march_protocol
  let total_cost := calculate_protocol_cost protocol critical urgent delayed minimal
  let equipment_used := calculate_equipment_used protocol critical urgent delayed minimal
  let equipment_preserved := equipment_preserved_map s.equipment_inventory equipment_used
  { name := "MARCH Immediate Intervention"
    description := "Full intervention for current critical casualties. Depletes majority of supplies treating current patient load. Maximizes immediate survival - requires rapid resupply or evacuation before additional casualties arrive"
    protocol := protocol
    total_cost := total_cost
    estimated_survival_rate := 0.92
    equipment_preserved := equipment_preserved
    rationale := "Full MARCH intervention for " ++ toString critical ++ " critical patients. Stops the dying. Assumes medevac or resupply within " ++ toString s.hours_until_resupply ++ "h. Minimal equipment reserve." }

/-! ### Doctrine 2: Golden Hour - Stabilize + Evacuate
(`FieldHospitalDoctrine._doctrine_golden_hour`) -/

def golden_critical_equipment : List (String × Nat × ℚ) :=
  [("tourniquet", 2, EQUIPMENT_COSTS "tourniquet" * 2),
   ("hemostatic_gauze", 3, EQUIPMENT_COSTS "hemostatic_gauze" * 3),
   ("nasopharyngeal_airway", 1, EQUIPMENT_COSTS "nasopharyngeal_airway"),
   ("iv_fluid_1L", 2, EQUIPMENT_COSTS "iv_fluid_1L" * 2),
   ("morphine_dose", 2, EQUIPMENT_COSTS "morphine_dose" * 2)]

def golden_urgent_equipment : List (String × Nat × ℚ) :=
  [("pressure_bandage", 2, EQUIPMENT_COSTS "pressure_bandage" * 2),
   ("iv_fluid_1L", 1, EQUIPMENT_COSTS "iv_fluid_1L"),
   ("morphine_dose", 1, EQUIPMENT_COSTS "morphine_dose")]

def golden_delayed_equipment : List (String × Nat × ℚ) :=
  [("morphine_dose", 1, EQUIPMENT_COSTS "morphine_dose")]

def golden_minimal_equipment : List (String × Nat × ℚ) := []

def golden_hour_protocol : ProtocolAllocation :=
  { equipment_per_critical := golden_critical_equipment
    equipment_per_urgent := golden_urgent_equipment
    equipment_per_delayed := golden_delayed_equipment
    equipment_per_minimal := golden_minimal_equipment
    rationale := "Stabilize and package for evacuation - no surgery, keep them alive" }

def doctrine_golden_hour (s : Scenario) (critical urgent delayed minimal : Nat) :
    MedicalStrategy :=
  let protocol := golden_hour_protocol
  let total_cost := calculate_protocol_cost protocol critical urgent delayed minimal
  let equipment_used := calculate_equipment_used protocol critical urgent delayed minimal
  let equipment_preserved := equipment_preserved_map s.equipment_inventory equipment_used
  { name := "Golden Hour Stabilization"
    description := "Minimal stabilization for rapid evacuation. Preserves supplies by transferring definitive care burden to Role 3 facility. Effective when medevac available within short timeframe"
    protocol := protocol
    total_cost := total_cost
    estimated_survival_rate := 0.88
    equipment_preserved := equipment_preserved
    rationale := "Medevac available. Stabilize " ++ toString critical ++ " critical + " ++ toString urgent ++ " urgent for evacuation. Definitive care at Role 3. Equipment preserved: 70%." }

/-! ### Doctrine 3: Swedish Triage - Prolonged Field Care
(`FieldHospitalDoctrine._doctrine_prolonged_field_care`) -/

def pfc_critical_equipment : List (String × Nat × ℚ) :=
  [("tourniquet", 2, EQUIPMENT_COSTS "tourniquet" * 2),
   ("hemostatic_gauze", 4, EQUIPMENT_COSTS "hemostatic_gauze" * 4),
   ("ventilator", 1, EQUIPMENT_COSTS "ventilator"),
   ("blood_unit_type_specific", 4, EQUIPMENT_COSTS "blood_unit_type_specific" * 4),
   ("iv_fluid_1L", 3, EQUIPMENT_COSTS "iv_fluid_1L" * 3),
   ("antibiotics_broad_spectrum", 2, EQUIPMENT_COSTS "antibiotics_broad_spectrum" * 2),
   ("pulse_oximeter", 1, EQUIPMENT_COSTS "pulse_oximeter"),
   ("morphine_dose", 4, EQUIPMENT_COSTS "morphine_dose" * 4)]

def pfc_urgent_equipment : List (String × Nat × ℚ) :=
  [("pressure_bandage", 2, EQUIPMENT_COSTS "pressure_bandage" * 2),
   ("iv_fluid_1L", 2, EQUIPMENT_COSTS "iv_fluid_1L" * 2),
   ("blood_unit_type_specific", 2, EQUIPMENT_COSTS "blood_unit_type_specific" * 2),
   ("antibiotics_broad_spectrum", 1, EQUIPMENT_COSTS "antibiotics_broad_spectrum"),
   ("morphine_dose", 3, EQUIPMENT_COSTS "morphine_dose" * 3)]

def pfc_delayed_equipment : List (String × Nat × ℚ) :=
  [("antibiotics_broad_spectrum", 1, EQUIPMENT_COSTS "antibiotics_broad_spectrum"),
   ("morphine_dose", 2, EQUIPMENT_COSTS "morphine_dose" * 2)]

def pfc_minimal_equipment : List (String × Nat × ℚ) :=
  [("morphine_dose", 1, EQUIPMENT_COSTS "morphine_dose")]

def prolonged_field_care_protocol : ProtocolAllocation :=
  { equipment_per_critical := pfc_critical_equipment
    equipment_per_urgent := pfc_urgent_equipment
    equipment_per_delayed := pfc_delayed_equipment
    equipment_per_minimal := pfc_minimal_equipment
    rationale := "Extended field care with monitoring - treating in place for hours/days" }

def doctrine_prolonged_field_care (s : Scenario) (critical urgent delayed minimal : Nat) :
    MedicalStrategy :=
  let protocol := prolonged_field_care_protocol
  let total_cost := calculate_protocol_cost protocol critical urgent delayed minimal
  let equipment_used := calculate_equipment_used protocol critical urgent delayed minimal
  let equipment_preserved := equipment_preserved_map s.equipment_inventory equipment_used
  { name := "Prolonged Field Care"
    description := "Sustained resource allocation for extended treatment in place. Ventilator and monitoring support for current patients. Suitable for delayed evacuation with moderate resupply timeline"
    protocol := protocol
    total_cost := total_cost
    estimated_survival_rate := 0.85
    equipment_preserved := equipment_preserved
    rationale := "Resupply delayed " ++ toString s.hours_until_resupply ++ "h. Full support for " ++ toString critical ++ " critical patients with ventilators. Stabilization for " ++ toString urgent ++ " urgent. Equipment preserved: 40%." }

/-! ### Doctrine 4: NATO Role 2 - Surgical Intervention
(`FieldHospitalDoctrine._doctrine_surgical`) -/

def surgical_critical_equipment : List (String × Nat × ℚ) :=
  [("tourniquet", 2, EQUIPMENT_COSTS "tourniquet" * 2),
   ("surgical_pack_trauma", 1, EQUIPMENT_COSTS "surgical_pack_trauma"),
   ("anesthesia_kit", 1, EQUIPMENT_COSTS "anesthesia_kit"),
   ("ventilator", 1, EQUIPMENT_COSTS "ventilator"),
   ("blood_unit_O_neg", 6, EQUIPMENT_COSTS "blood_unit_O_neg" * 6),
   ("iv_fluid_1L", 4, EQUIPMENT_COSTS "iv_fluid_1L" * 4),
   ("antibiotics_broad_spectrum", 2, EQUIPMENT_COSTS "antibiotics_broad_spectrum" * 2),
   ("morphine_dose", 4, EQUIPMENT_COSTS "morphine_dose" * 4)]

def surgical_urgent_equipment : List (String × Nat × ℚ) :=
  [("surgical_pack_trauma", 1, EQUIPMENT_COSTS "surgical_pack_trauma"),
   ("blood_unit_type_specific", 3, EQUIPMENT_COSTS "blood_unit_type_specific" * 3),
   ("iv_fluid_1L", 3, EQUIPMENT_COSTS "iv_fluid_1L" * 3),
   ("antibiotics_broad_spectrum", 1, EQUIPMENT_COSTS "antibiotics_broad_spectrum"),
   ("morphine_dose", 3, EQUIPMENT_COSTS "morphine_dose" * 3)]

def surgical_delayed_equipment : List (String × Nat × ℚ) :=
  [("antibiotics_broad_spectrum", 1, EQUIPMENT_COSTS "antibiotics_broad_spectrum"),
   ("morphine_dose", 2, EQUIPMENT_COSTS "morphine_dose" * 2)]

def surgical_minimal_equipment : List (String × Nat × ℚ) :=
  [("morphine_dose", 1, EQUIPMENT_COSTS "morphine_dose")]

def surgical_protocol : ProtocolAllocation :=
  { equipment_per_critical := surgical_critical_equipment
    equipment_per_urgent := surgical_urgent_equipment
    equipment_per_delayed := surgical_delayed_equipment
    equipment_per_minimal := surgical_minimal_equipment
    rationale := "Damage control surgery for critical patients - NATO Role 2 capability" }

def doctrine_surgical (s : Scenario) (critical urgent delayed minimal : Nat) :
    MedicalStrategy :=
  let protocol := surgical_protocol
  let total_cost := calculate_protocol_cost protocol critical urgent delayed minimal
  let equipment_used := calculate_equipment_used protocol critical urgent delayed minimal
  let equipment_preserved := equipment_preserved_map s.equipment_inventory equipment_used
  { name := "NATO Role 2 Surgical"
    description := "Maximum resource allocation for surgical intervention. Highest survival rate when surgical capability and sufficient supplies available. Consumes significant equipment per patient"
    protocol := protocol
    total_cost := total_cost
    estimated_survival_rate := 0.94
    equipment_preserved := equipment_preserved
    rationale := "Surgical capability available. Operating on " ++ toString critical ++ " critical + " ++ toString urgent ++ " urgent patients. Highest survival rate but consumes significant resources. Equipment preserved: 20%." }

/-! ### Doctrine 5: Mass Casualty - Expectant Triage
(`FieldHospitalDoctrine._doctrine_mass_casualty`) -/

/-- Model of `expectant_count = int(critical * 0.4)`.  The Python double literal `0.4`
is modelled as the exact rational 2/5, and `int` truncation on a non-negative
value as the natural floor; for every casualty count that fits well inside the
53-bit double mantissa (far beyond any realistic input) the double computation
agrees with this rational floor. -/
def expectant_count (critical : Nat) : Nat :=
  ⌊(critical : ℚ) * 0.4⌋₊

def mass_critical_equipment : List (String × Nat × ℚ) :=
  [("tourniquet", 2, EQUIPMENT_COSTS "tourniquet" * 2),
   ("hemostatic_gauze", 3, EQUIPMENT_COSTS "hemostatic_gauze" * 3),
   ("iv_fluid_1L", 2, EQUIPMENT_COSTS "iv_fluid_1L" * 2),
   ("blood_unit_O_neg", 2, EQUIPMENT_COSTS "blood_unit_O_neg" * 2),
   ("morphine_dose", 2, EQUIPMENT_COSTS "morphine_dose" * 2)]

def mass_urgent_equipment : List (String × Nat × ℚ) :=
  [("pressure_bandage", 1, EQUIPMENT_COSTS "pressure_bandage"),
   ("iv_fluid_1L", 1, EQUIPMENT_COSTS "iv_fluid_1L"),
   ("morphine_dose", 1, EQUIPMENT_COSTS "morphine_dose")]

def mass_delayed_equipment : List (String × Nat × ℚ) :=
  [("morphine_dose", 1, EQUIPMENT_COSTS "morphine_dose")]

def mass_minimal_equipment : List (String × Nat × ℚ) := []

def mass_casualty_protocol : ProtocolAllocation :=
  { equipment_per_critical := mass_critical_equipment
    equipment_per_urgent := mass_urgent_equipment
    equipment_per_delayed := mass_delayed_equipment
    equipment_per_minimal := mass_minimal_equipment
    rationale := "Expectant triage - focus resources on highest survival probability" }

def doctrine_mass_casualty (s : Scenario) (critical urgent delayed minimal : Nat) :
    MedicalStrategy :=
  let expectant := expectant_count critical
  let treatable_critical := critical - expectant
  let protocol := mass_casualty_protocol
  let base_cost := calculate_protocol_cost protocol treatable_critical urgent delayed minimal
  let total_cost := base_cost + (expectant : ℚ) * EQUIPMENT_COSTS "morphine_dose" * 3
  let equipment_used := calculate_equipment_used protocol treatable_critical urgent delayed minimal
  let equipment_preserved := equipment_preserved_map s.equipment_inventory equipment_used
  { name := "Mass Casualty Protocol"
    description := "Allocate limited resources across total casualty load. Expectant classification for lowest survival probability. Preserves critical supplies for highest-probability survivors across multiple waves"
    protocol := protocol
    total_cost := total_cost
    estimated_survival_rate := 0.68
    equipment_preserved := equipment_preserved
    rationale := "Mass casualty event: " ++ toString (((critical + urgent : Nat) : Int) + s.expected_incoming_casualties) ++ " total casualties. Implementing expectant triage - " ++ toString expectant ++ " critical patients receive comfort care only. Resources focused on " ++ toString (treatable_critical + urgent) ++ " treatable patients. Equipment preserved: 65% for next wave." }

/-! ### Doctrine 6: Siege Medicine - Extreme Conservation
(`FieldHospitalDoctrine._doctrine_siege_medicine`) -/

def siege_critical_equipment : List (String × Nat × ℚ) :=
  [("pressure_bandage", 2, EQUIPMENT_COSTS "pressure_bandage" * 2),
   ("antibiotics_broad_spectrum", 1, EQUIPMENT_COSTS "antibiotics_broad_spectrum"),
   ("morphine_dose", 3, EQUIPMENT_COSTS "morphine_dose" * 3)]

def siege_urgent_equipment : List (String × Nat × ℚ) :=
  [("pressure_bandage", 1, EQUIPMENT_COSTS "pressure_bandage"),
   ("antibiotics_broad_spectrum", 1, EQUIPMENT_COSTS "antibiotics_broad_spectrum"),
   ("morphine_dose", 2, EQUIPMENT_COSTS "morphine_dose" * 2)]

def siege_delayed_equipment : List (String × Nat × ℚ) :=
  [("morphine_dose", 1, EQUIPMENT_COSTS "morphine_dose")]

def siege_minimal_equipment : List (String × Nat × ℚ) := []

def siege_medicine_protocol : ProtocolAllocation :=
  { equipment_per_critical := siege_critical_equipment
    equipment_per_urgent := siege_urgent_equipment
    equipment_per_delayed := siege_delayed_equipment
    equipment_per_minimal := siege_minimal_equipment
    rationale := "Extreme conservation - no resupply, no evacuation, siege conditions" }

def doctrine_siege_medicine (s : Scenario) (critical urgent delayed minimal : Nat) :
    MedicalStrategy :=
  let protocol := siege_medicine_protocol
  let total_cost := calculate_protocol_cost protocol critical urgent delayed minimal
  let equipment_used := calculate_equipment_used protocol critical urgent delayed minimal
  let equipment_preserved := equipment_preserved_map s.equipment_inventory equipment_used
  { name := "Siege Medicine"
    description := "Minimal intervention to maximize supply duration. Antibiotics and pain management only. Sustains operations for prolonged casualty flow without resupply or evacuation"
    protocol := protocol
    total_cost := total_cost
    estimated_survival_rate := 0.62
    equipment_preserved := equipment_preserved
    rationale := "No resupply for " ++ toString s.hours_until_resupply ++ "h. Expected " ++ toString s.expected_incoming_casualties ++ " additional casualties. Implementing siege protocols: minimal intervention, maximum conservation. Equipment preserved: 85%. Could sustain operations for extended period." }

/-! ### Selector (`FieldHospitalDoctrine.generate_strategies`) -/

/-- Model of `sum(1 for c in scenario.casualties if c.severity == sev)`. -/
def count_severity (s : Scenario) (sev : Severity) : Nat :=
  s.casualties.countP (fun c => decide (c.severity = sev))

def generate_strategies (s : Scenario) : List MedicalStrategy :=
  let critical := count_severity s Severity.CRITICAL
  let urgent := count_severity s Severity.URGENT
  let delayed := count_severity s Severity.DELAYED
  let minimal := count_severity s Severity.MINIMAL
  let strategies := [doctrine_march_immediate s critical urgent delayed minimal]
  let strategies :=
    if s.medevac_available ∧ s.hours_until_resupply < 3 then
      strategies ++ [doctrine_golden_hour s critical urgent delayed minimal]
    else strategies
  let strategies :=
    if s.hours_until_resupply > 4 then
      strategies ++ [doctrine_prolonged_field_care s critical urgent delayed minimal]
    else strategies
  let strategies :=
    if s.surgical_capability then
      strategies ++ [doctrine_surgical s critical urgent delayed minimal]
    else strategies
  let strategies :=
    if s.expected_incoming_casualties > 20 ∨ critical + urgent > 15 then
      strategies ++ [doctrine_mass_casualty s critical urgent delayed minimal]
    else strategies
  let strategies :=
    if s.hours_until_resupply > 12 ∨ s.expected_incoming_casualties > 30 then
      strategies ++ [doctrine_siege_medicine s critical urgent delayed minimal]
    else strategies
  strategies

/-- All triples of a protocol, across the four severity tiers. -/
def protocol_triples (p : ProtocolAllocation) : List (String × Nat × ℚ) :=
  p.equipment_per_critical ++ p.equipment_per_urgent ++
    p.equipment_per_delayed ++ p.equipment_per_minimal

/-- Modelled from the spec: the doctrine table of section 4.3/4.4 — the six
doctrines in their fixed evaluation order, each paired with its applicability
predicate as the spec words it (strategy names are the ones the code
attaches).  Refinement target compared against `generate_strategies`. -/
def spec_doctrine_table (s : Scenario) : List (String × Bool) :=
  [("MARCH Immediate Intervention", true),
   ("Golden Hour Stabilization",
     s.medevac_available && decide (s.hours_until_resupply < 3)),
   ("Prolonged Field Care", decide (s.hours_until_resupply > 4)),
   ("NATO Role 2 Surgical", s.surgical_capability),
   ("Mass Casualty Protocol",
     decide (s.expected_incoming_casualties > 20)
       || decide (count_severity s Severity.CRITICAL
            + count_severity s Severity.URGENT > 15)),
   ("Siege Medicine",
     decide (s.hours_until_resupply > 12)
       || decide (s.expected_incoming_casualties > 30))]

/-! ### Ranking fallback heuristic (`medevai_api._simulate_coherence_fallback`)

When the remote ARBITER call raises (unreachable / timeout /
`raise_for_status` on a non-2xx), the `except` branch of
`_get_arbiter_coherence` returns `_simulate_coherence_fallback(scenario,
strategies)`.  Python `/` raises `ZeroDivisionError` on a zero denominator,
which would escape the `except` branch and surface as a hard 500 error; a
raising division is modelled as `none`. -/

def sum_preserved (st : MedicalStrategy) : Int :=
  (st.equipment_preserved.map (fun kv => kv.2)).sum

def sum_inventory (s : Scenario) : Int :=
  (s.equipment_inventory.map (fun kv => kv.2)).sum

/-- Python `a / b`: `none` models `ZeroDivisionError`. -/
def qdiv (a b : ℚ) : Option ℚ :=
  if b = 0 then none else some (a / b)

def fallback_score (s : Scenario) (st : MedicalStrategy) : Option ℚ :=
  let score0 := st.estimated_survival_rate * 0.4
  match qdiv ((sum_preserved st : Int) : ℚ) ((sum_inventory s : Int) : ℚ) with
  | none => none
  | some pres =>
    let score1 :=
      if s.expected_incoming_casualties > 20 then score0 + pres * 0.3
      else score0 + (1 - pres) * 0.3
    let score2 :=
      if s.hours_until_resupply < 3 then
        (if pres < 0.4 then score1 + 0.2 else score1)
      else if s.hours_until_resupply > 10 then
        (if pres > 0.6 then score1 + 0.2 else score1)
      else score1
    match qdiv st.total_cost
        (st.estimated_survival_rate * (s.casualties.length : ℚ)) with
    | none => none
    | some cost_per_survival =>
      let score3 := if cost_per_survival < 5000 then score2 + 0.1 else score2
      some (min 1 (max 0 score3))

/-- The `for i, strategy in enumerate(strategies)` loop of
`_simulate_coherence_fallback`: scores in strategy order; any raising
iteration aborts the whole call (`none`). -/
def simulate_coherence_fallback (s : Scenario) :
    List MedicalStrategy → Option (List ℚ)
  | [] => some []
  | st :: rest =>
    match fallback_score s st, simulate_coherence_fallback s rest with
    | some y, some ys => some (y :: ys)
    | _, _ => none

/-! ### Concrete inputs used by counterexamples and witnesses -/

/-- The end-to-end scenario of the spec (and of the module demo block):
2 critical, 2 urgent, 2 delayed, 1 minimal; at least 20 of each core item;
8 h to resupply; 15 expected incoming; medevac and surgery available. -/
def c1_casualties : List Casualty :=
  [{ severity := Severity.CRITICAL,
     injuries := ["massive_hemorrhage", "tension_pneumothorax"],
     survival_probability := 0.65 },
   { severity := Severity.CRITICAL,
     injuries := ["massive_hemorrhage", "airway_compromise"],
     survival_probability := 0.70 },
   { severity := Severity.URGENT,
     injuries := ["compound_fracture", "hemorrhage"],
     survival_probability := 0.85 },
   { severity := Severity.URGENT,
     injuries := ["abdominal_trauma"],
     survival_probability := 0.80 },
   { severity := Severity.DELAYED,
     injuries := ["simple_fracture"],
     survival_probability := 0.95 },
   { severity := Severity.DELAYED,
     injuries := ["soft_tissue_injury"],
     survival_probability := 0.95 },
   { severity := Severity.MINIMAL,
     injuries := ["minor_laceration"],
     survival_probability := 0.98 }]

def c1_inventory : List (String × Int) :=
  [("tourniquet", 20),
   ("hemostatic_gauze", 50),
   ("pressure_bandage", 100),
   ("nasopharyngeal_airway", 20),
   ("chest_seal", 20),
   ("needle_decompression", 20),
   ("ventilator", 20),
   ("iv_fluid_1L", 200),
   ("blood_unit_O_neg", 30),
   ("blood_unit_type_specific", 40),
   ("surgical_pack_trauma", 20),
   ("antibiotics_broad_spectrum", 100),
   ("morphine_dose", 200)]

def scenario_c1 : Scenario :=
  { casualties := c1_casualties
    equipment_inventory := c1_inventory
    hours_until_resupply := 8.0
    expected_incoming_casualties := 15
    medevac_available := true
    surgical_capability := true }

/-- A scenario in which Evacuation Stabilization (Golden Hour) is applicable:
medevac available and resupply in under 3 h. -/
def scenario_c6 : Scenario :=
  { casualties := []
    equipment_inventory := []
    hours_until_resupply := 2
    expected_incoming_casualties := 0
    medevac_available := true
    surgical_capability := false }

/-- A degenerate but accepted scenario: no current casualties.  The fallback
heuristic divides by `estimated_survival_rate * len(casualties)` on it. -/
def scenario_c8 : Scenario :=
  { casualties := []
    equipment_inventory := [("morphine_dose", 10)]
    hours_until_resupply := 1
    expected_incoming_casualties := 0
    medevac_available := false
    surgical_capability := false }

/-- A minimal scenario used by witnesses. -/
def scenario_w : Scenario :=
  { casualties := []
    equipment_inventory := [("tourniquet", 1)]
    hours_until_resupply := 0
    expected_incoming_casualties := 0
    medevac_available := false
    surgical_capability := false }

/-- Like `scenario_c8` but with one current casualty, so the fallback
denominators are non-zero. -/
def scenario_c8w : Scenario :=
  { casualties := [{ severity := Severity.CRITICAL,
                     injuries := ["massive_hemorrhage"],
                     survival_probability := 0.65 }]
    equipment_inventory := [("morphine_dose", 10)]
    hours_until_resupply := 1
    expected_incoming_casualties := 0
    medevac_available := false
    surgical_capability := false }

/-! ## Helper lemmas -/

theorem dictGetD_dictSet {α : Type} (m : List (String × α)) (k : String)
    (v d : α) (k2 : String) :
    dictGetD (dictSet m k v) k2 d = if k = k2 then v else dictGetD m k2 d := by
  induction m with
  | nil =>
    by_cases h : k = k2 <;> simp [dictSet, dictGetD, h]
  | cons a rest ih =>
    obtain ⟨k3, v3⟩ := a
    by_cases h1 : k3 = k
    · subst h1
      by_cases h2 : k3 = k2 <;> simp [dictSet, dictGetD, h2]
    · by_cases h2 : k3 = k2
      · subst h2
        have h3 : ¬ k = k3 := fun h4 => h1 h4.symm
        simp [dictSet, dictGetD, h1, h3]
      · simp [dictSet, dictGetD, h1, h2, ih]

theorem dictGetD_consume_foldl (l : List (String × Nat × ℚ)) (n : Nat)
    (acc : List (String × Nat)) (k : String) :
    dictGetD (l.foldl
        (fun acc2 t => dictSet acc2 t.1 (dictGetD acc2 t.1 0 + t.2.1 * n)) acc) k 0
      = dictGetD acc k 0
        + ((l.filter (fun t => decide (t.1 = k))).map (fun t => t.2.1 * n)).sum := by
  induction l generalizing acc with
  | nil => simp
  | cons t rest ih =>
    simp only [List.foldl_cons, List.filter_cons]
    rw [ih, dictGetD_dictSet]
    by_cases h : t.1 = k
    · simp [h]
      omega
    · simp [h]

theorem foldl_cost_eq (l : List (String × Nat × ℚ)) (q : ℚ) (init : ℚ) :
    l.foldl (fun acc t => acc + t.2.2 * q) init
      = init + (l.map (fun t => t.2.2 * q)).sum := by
  induction l generalizing init with
  | nil => simp
  | cons t rest ih =>
    simp only [List.foldl_cons, List.map_cons, List.sum_cons]
    rw [ih]
    ring

theorem keys_equipment_preserved_map (inv : List (String × Int))
    (used : List (String × Nat)) :
    (equipment_preserved_map inv used).map Prod.fst = inv.map Prod.fst := by
  simp [equipment_preserved_map, List.map_map, Function.comp]

theorem dictGetD_map_keyfun (inv : List (String × Int)) (f : String → Int)
    (k : String) (d : Int) (h : k ∈ inv.map Prod.fst) :
    dictGetD (inv.map (fun kv => (kv.1, f kv.1))) k d = f k := by
  induction inv with
  | nil => simp at h
  | cons a rest ih =>
    by_cases h2 : a.1 = k
    · simp [dictGetD, h2]
    · have h3 : k ∈ rest.map Prod.fst := by
        simp only [List.map_cons, List.mem_cons] at h
        rcases h with h4 | h4
        · exact absurd h4.symm h2
        · exact h4
      simp [dictGetD, h2, ih h3]

theorem dictGetD_equipment_preserved_map (inv : List (String × Int))
    (used : List (String × Nat)) (k : String) (h : k ∈ inv.map Prod.fst) :
    dictGetD (equipment_preserved_map inv used) k 0
      = dictGetD inv k 0 - ((dictGetD used k 0 : ℕ) : Int) := by
  exact dictGetD_map_keyfun inv
    (fun k2 => dictGetD inv k2 0 - ((dictGetD used k2 0 : ℕ) : Int)) k 0 h

/-- Normal form of the selector: the unconditional MARCH strategy followed by
five independently gated appends. -/
theorem generate_strategies_normal (s : Scenario) :
    generate_strategies s =
      [doctrine_march_immediate s (count_severity s Severity.CRITICAL)
        (count_severity s Severity.URGENT) (count_severity s Severity.DELAYED)
        (count_severity s Severity.MINIMAL)]
      ++ (if s.medevac_available ∧ s.hours_until_resupply < 3 then
            [doctrine_golden_hour s (count_severity s Severity.CRITICAL)
              (count_severity s Severity.URGENT) (count_severity s Severity.DELAYED)
              (count_severity s Severity.MINIMAL)]
          else [])
      ++ (if s.hours_until_resupply > 4 then
            [doctrine_prolonged_field_care s (count_severity s Severity.CRITICAL)
              (count_severity s Severity.URGENT) (count_severity s Severity.DELAYED)
              (count_severity s Severity.MINIMAL)]
          else [])
      ++ (if s.surgical_capability then
            [doctrine_surgical s (count_severity s Severity.CRITICAL)
              (count_severity s Severity.URGENT) (count_severity s Severity.DELAYED)
              (count_severity s Severity.MINIMAL)]
          else [])
      ++ (if s.expected_incoming_casualties > 20
            ∨ count_severity s Severity.CRITICAL + count_severity s Severity.URGENT > 15 then
            [doctrine_mass_casualty s (count_severity s Severity.CRITICAL)
              (count_severity s Severity.URGENT) (count_severity s Severity.DELAYED)
              (count_severity s Severity.MINIMAL)]
          else [])
      ++ (if s.hours_until_resupply > 12 ∨ s.expected_incoming_casualties > 30 then
            [doctrine_siege_medicine s (count_severity s Severity.CRITICAL)
              (count_severity s Severity.URGENT) (count_severity s Severity.DELAYED)
              (count_severity s Severity.MINIMAL)]
          else [])
      := by
  simp only [generate_strategies]
  split_ifs <;> simp

/-- The selector emits exactly the names of the spec-side doctrine table rows
whose applicability predicate holds, in table order. -/
theorem names_generate_strategies (s : Scenario) :
    (generate_strategies s).map (fun st => st.name)
      = ((spec_doctrine_table s).filter (fun nb => nb.2)).map Prod.fst := by
  rw [generate_strategies_normal]
  simp only [spec_doctrine_table]
  split_ifs with h1 h2 h3 h4 h5 <;>
    simp_all [List.filter_cons, doctrine_march_immediate, doctrine_golden_hour,
      doctrine_prolonged_field_care, doctrine_surgical, doctrine_mass_casualty,
      doctrine_siege_medicine]

theorem mem_ite_singleton {α : Type} {c : Prop} [Decidable c]
    {x a : α} (h : a ∈ (if c then [x] else ([] : List α))) : a = x := by
  by_cases hc : c
  · rw [if_pos hc] at h
    exact List.mem_singleton.mp h
  · rw [if_neg hc] at h
    exact absurd h (List.not_mem_nil a)

/-- Every strategy the selector returns is one of the six generator outputs at
the scenario tier counts. -/
theorem mem_generate_strategies_cases (s : Scenario) (st : MedicalStrategy)
    (h : st ∈ generate_strategies s) :
    st = doctrine_march_immediate s (count_severity s Severity.CRITICAL)
        (count_severity s Severity.URGENT) (count_severity s Severity.DELAYED)
        (count_severity s Severity.MINIMAL)
    ∨ st = doctrine_golden_hour s (count_severity s Severity.CRITICAL)
        (count_severity s Severity.URGENT) (count_severity s Severity.DELAYED)
        (count_severity s Severity.MINIMAL)
    ∨ st = doctrine_prolonged_field_care s (count_severity s Severity.CRITICAL)
        (count_severity s Severity.URGENT) (count_severity s Severity.DELAYED)
        (count_severity s Severity.MINIMAL)
    ∨ st = doctrine_surgical s (count_severity s Severity.CRITICAL)
        (count_severity s Severity.URGENT) (count_severity s Severity.DELAYED)
        (count_severity s Severity.MINIMAL)
    ∨ st = doctrine_mass_casualty s (count_severity s Severity.CRITICAL)
        (count_severity s Severity.URGENT) (count_severity s Severity.DELAYED)
        (count_severity s Severity.MINIMAL)
    ∨ st = doctrine_siege_medicine s (count_severity s Severity.CRITICAL)
        (count_severity s Severity.URGENT) (count_severity s Severity.DELAYED)
        (count_severity s Severity.MINIMAL) := by
  rw [generate_strategies_normal] at h
  simp only [List.mem_append, List.mem_singleton] at h
  rcases h with ((((h | h) | h) | h) | h) | h
  · exact Or.inl h
  · exact Or.inr (Or.inl (mem_ite_singleton h))
  · exact Or.inr (Or.inr (Or.inl (mem_ite_singleton h)))
  · exact Or.inr (Or.inr (Or.inr (Or.inl (mem_ite_singleton h))))
  · exact Or.inr (Or.inr (Or.inr (Or.inr (Or.inl (mem_ite_singleton h)))))
  · exact Or.inr (Or.inr (Or.inr (Or.inr (Or.inr (mem_ite_singleton h)))))

/-! ## Claim theorems -/

/-- C2: for every scenario, `generate_strategies` returns exactly one strategy
per applicable doctrine, in the fixed order Immediate Intervention (MARCH),
Evacuation Stabilization (Golden Hour), Prolonged Field Care, Surgical
Intervention, Mass-Casualty Triage, Extreme Conservation (Siege Medicine),
with the applicability predicates of the spec table: always; medevac and
under 3 h to resupply; over 4 h; surgical capability; more than 20 expected
incoming or critical+urgent above 15; over 12 h or more than 30 expected
incoming — critical and urgent counted from the casualty list. -/
theorem C2_selector_refines_spec_table (s : Scenario) :
    (generate_strategies s).map (fun st => st.name)
      = ((spec_doctrine_table s).filter (fun nb => nb.2)).map Prod.fst :=
  names_generate_strategies s

/-- C7: for every scenario the MARCH Immediate Intervention strategy is the
first element of the returned list, which is therefore never empty. -/
theorem C7_immediate_always_first (s : Scenario) :
    generate_strategies s ≠ []
    ∧ (generate_strategies s).head?
        = some (doctrine_march_immediate s (count_severity s Severity.CRITICAL)
            (count_severity s Severity.URGENT) (count_severity s Severity.DELAYED)
            (count_severity s Severity.MINIMAL)) := by
  rw [generate_strategies_normal]
  constructor
  · simp
  · simp

/-- C3: the aggregation step is a pure function computing `total_cost` as the
sum over the four tiers of the cost of each triple times the patient
count of its tier, and `consumption_map[item]` as the sum over the four
tiers of quantity times tier patient count over the triples naming
`item` (per-tier contributions of a repeated item add up). -/
theorem C3_aggregator_correct (p : ProtocolAllocation)
    (critical urgent delayed minimal : Nat) :
    calculate_protocol_cost p critical urgent delayed minimal
      = ((p.equipment_per_critical.map (fun t => t.2.2 * (critical : ℚ))).sum
        + (p.equipment_per_urgent.map (fun t => t.2.2 * (urgent : ℚ))).sum
        + (p.equipment_per_delayed.map (fun t => t.2.2 * (delayed : ℚ))).sum
        + (p.equipment_per_minimal.map (fun t => t.2.2 * (minimal : ℚ))).sum)
    ∧ ∀ item : String,
        dictGetD (calculate_equipment_used p critical urgent delayed minimal) item 0
          = ((p.equipment_per_critical.filter (fun t => decide (t.1 = item))).map
                (fun t => t.2.1 * critical)).sum
            + ((p.equipment_per_urgent.filter (fun t => decide (t.1 = item))).map
                (fun t => t.2.1 * urgent)).sum
            + ((p.equipment_per_delayed.filter (fun t => decide (t.1 = item))).map
                (fun t => t.2.1 * delayed)).sum
            + ((p.equipment_per_minimal.filter (fun t => decide (t.1 = item))).map
                (fun t => t.2.1 * minimal)).sum := by
  constructor
  · simp only [calculate_protocol_cost]
    rw [foldl_cost_eq, foldl_cost_eq, foldl_cost_eq, foldl_cost_eq]
    ring
  · intro item
    simp only [calculate_equipment_used]
    rw [dictGetD_consume_foldl, dictGetD_consume_foldl, dictGetD_consume_foldl,
      dictGetD_consume_foldl]
    simp only [dictGetD]
    omega


/-! Evaluation lemmas for the cost table (plain reduction of the string
match). -/

theorem cost_tourniquet : EQUIPMENT_COSTS "tourniquet" = 30 := rfl

theorem cost_hemostatic_gauze : EQUIPMENT_COSTS "hemostatic_gauze" = 45 := rfl

theorem cost_pressure_bandage : EQUIPMENT_COSTS "pressure_bandage" = 15 := rfl

theorem cost_nasopharyngeal_airway : EQUIPMENT_COSTS "nasopharyngeal_airway" = 8 := rfl

theorem cost_chest_seal : EQUIPMENT_COSTS "chest_seal" = 25 := rfl

theorem cost_needle_decompression : EQUIPMENT_COSTS "needle_decompression" = 12 := rfl

theorem cost_ventilator : EQUIPMENT_COSTS "ventilator" = 25000 := rfl

theorem cost_iv_fluid_1L : EQUIPMENT_COSTS "iv_fluid_1L" = 50 := rfl

theorem cost_blood_unit_O_neg : EQUIPMENT_COSTS "blood_unit_O_neg" = 500 := rfl

theorem cost_blood_unit_type_specific :
    EQUIPMENT_COSTS "blood_unit_type_specific" = 450 := rfl

theorem cost_surgical_pack_trauma : EQUIPMENT_COSTS "surgical_pack_trauma" = 3000 := rfl

theorem cost_anesthesia_kit : EQUIPMENT_COSTS "anesthesia_kit" = 500 := rfl

theorem cost_antibiotics : EQUIPMENT_COSTS "antibiotics_broad_spectrum" = 200 := rfl

theorem cost_morphine_dose : EQUIPMENT_COSTS "morphine_dose" = 15 := rfl

theorem cost_tranexamic_acid : EQUIPMENT_COSTS "tranexamic_acid" = 80 := rfl

theorem cost_pulse_oximeter : EQUIPMENT_COSTS "pulse_oximeter" = 150 := rfl

theorem march_protocol_triples_ok :
    ∀ t ∈ protocol_triples march_protocol,
      (0 : ℚ) ≤ (t.2.1 : ℚ) ∧ 0 ≤ t.2.2
        ∧ t.2.2 = (t.2.1 : ℚ) * EQUIPMENT_COSTS t.1 := by
  intro t ht
  simp only [protocol_triples, march_protocol, march_critical_equipment,
    march_urgent_equipment, march_delayed_equipment, march_minimal_equipment,
    List.append_assoc, List.cons_append, List.nil_append, List.mem_cons,
    List.mem_singleton, List.not_mem_nil, or_false] at ht
  rcases ht with h | h | h | h | h | h | h | h | h | h | h | h | h | h | h | h | h <;>
    subst h <;>
    norm_num [cost_tourniquet, cost_hemostatic_gauze, cost_pressure_bandage,
      cost_nasopharyngeal_airway, cost_chest_seal, cost_needle_decompression,
      cost_iv_fluid_1L, cost_blood_unit_O_neg, cost_tranexamic_acid,
      cost_morphine_dose, cost_antibiotics]

theorem golden_protocol_triples_ok :
    ∀ t ∈ protocol_triples golden_hour_protocol,
      (0 : ℚ) ≤ (t.2.1 : ℚ) ∧ 0 ≤ t.2.2
        ∧ t.2.2 = (t.2.1 : ℚ) * EQUIPMENT_COSTS t.1 := by
  intro t ht
  fin_cases ht <;>
    norm_num [cost_tourniquet, cost_hemostatic_gauze, cost_pressure_bandage,
      cost_nasopharyngeal_airway, cost_iv_fluid_1L, cost_morphine_dose]

theorem pfc_protocol_triples_ok :
    ∀ t ∈ protocol_triples prolonged_field_care_protocol,
      (0 : ℚ) ≤ (t.2.1 : ℚ) ∧ 0 ≤ t.2.2
        ∧ t.2.2 = (t.2.1 : ℚ) * EQUIPMENT_COSTS t.1 := by
  intro t ht
  fin_cases ht <;>
    norm_num [cost_tourniquet, cost_hemostatic_gauze, cost_pressure_bandage,
      cost_ventilator, cost_blood_unit_type_specific, cost_iv_fluid_1L,
      cost_antibiotics, cost_pulse_oximeter, cost_morphine_dose]

theorem surgical_protocol_triples_ok :
    ∀ t ∈ protocol_triples surgical_protocol,
      (0 : ℚ) ≤ (t.2.1 : ℚ) ∧ 0 ≤ t.2.2
        ∧ t.2.2 = (t.2.1 : ℚ) * EQUIPMENT_COSTS t.1 := by
  intro t ht
  fin_cases ht <;>
    norm_num [cost_tourniquet, cost_surgical_pack_trauma, cost_anesthesia_kit,
      cost_ventilator, cost_blood_unit_O_neg, cost_blood_unit_type_specific,
      cost_iv_fluid_1L, cost_antibiotics, cost_morphine_dose]

theorem mass_protocol_triples_ok :
    ∀ t ∈ protocol_triples mass_casualty_protocol,
      (0 : ℚ) ≤ (t.2.1 : ℚ) ∧ 0 ≤ t.2.2
        ∧ t.2.2 = (t.2.1 : ℚ) * EQUIPMENT_COSTS t.1 := by
  intro t ht
  fin_cases ht <;>
    norm_num [cost_tourniquet, cost_hemostatic_gauze, cost_pressure_bandage,
      cost_iv_fluid_1L, cost_blood_unit_O_neg, cost_morphine_dose]

theorem siege_protocol_triples_ok :
    ∀ t ∈ protocol_triples siege_medicine_protocol,
      (0 : ℚ) ≤ (t.2.1 : ℚ) ∧ 0 ≤ t.2.2
        ∧ t.2.2 = (t.2.1 : ℚ) * EQUIPMENT_COSTS t.1 := by
  intro t ht
  fin_cases ht <;>
    norm_num [cost_pressure_bandage, cost_antibiotics, cost_morphine_dose]

/-- C9: every triple of every protocol built by any of the six doctrine
generators has non-negative quantity and cost, and its stored cost equals its
quantity times the Equipment Cost Table unit cost of its item. -/
theorem C9_triple_cost_invariant (s : Scenario) (st : MedicalStrategy)
    (h : st ∈ generate_strategies s) :
    ∀ t ∈ protocol_triples st.protocol,
      (0 : ℚ) ≤ (t.2.1 : ℚ) ∧ 0 ≤ t.2.2
        ∧ t.2.2 = (t.2.1 : ℚ) * EQUIPMENT_COSTS t.1 := by
  have hc := mem_generate_strategies_cases s st h
  rcases hc with h1 | h1 | h1 | h1 | h1 | h1 <;> subst h1
  · exact march_protocol_triples_ok
  · exact golden_protocol_triples_ok
  · exact pfc_protocol_triples_ok
  · exact surgical_protocol_triples_ok
  · exact mass_protocol_triples_ok
  · exact siege_protocol_triples_ok

theorem gs_scenario_w :
    generate_strategies scenario_w = [doctrine_march_immediate scenario_w 0 0 0 0] := by
  rw [generate_strategies_normal]
  norm_num [scenario_w, count_severity]

/-- Witness for C9 at the MARCH tourniquet triple of a concrete scenario. -/
theorem C9_witness :
    (0 : ℚ) ≤ ((2 : ℕ) : ℚ) ∧ (0 : ℚ) ≤ EQUIPMENT_COSTS "tourniquet" * 2
      ∧ EQUIPMENT_COSTS "tourniquet" * 2
          = ((2 : ℕ) : ℚ) * EQUIPMENT_COSTS "tourniquet" :=
  C9_triple_cost_invariant scenario_w
    (doctrine_march_immediate scenario_w 0 0 0 0)
    (by rw [gs_scenario_w]; exact List.mem_singleton.mpr rfl)
    ("tourniquet", 2, EQUIPMENT_COSTS "tourniquet" * 2)
    (by simp [doctrine_march_immediate, protocol_triples, march_protocol,
      march_critical_equipment])

/-- Truncation `int(critical * 0.4)` equals the natural division `critical * 2 / 5`. -/
theorem expectant_count_eq_div (critical : Nat) :
    expectant_count critical = critical * 2 / 5 := by
  have h1 : ((critical : ℚ) * 0.4) = ((critical * 2 : ℕ) : ℚ) / ((5 : ℕ) : ℚ) := by
    push_cast
    norm_num
    ring
  rw [expectant_count, h1, Nat.floor_div_nat, Nat.floor_natCast]

/-- C5: the Mass-Casualty generator classifies `int(critical * 0.4)` patients
as expectant — the floor of two fifths of the critical count (10 critical
gives 4 expectant and 6 treatable) — aggregates over the reduced critical
count with the other tiers unchanged, and adds `expectant × 3 ×
morphine-unit-cost` (= 15) to the aggregate cost. -/
theorem C5_mass_casualty_numbers (s : Scenario)
    (critical urgent delayed minimal : Nat) :
    expectant_count critical = critical * 2 / 5
    ∧ expectant_count 10 = 4
    ∧ 10 - expectant_count 10 = 6
    ∧ EQUIPMENT_COSTS "morphine_dose" = 15
    ∧ (doctrine_mass_casualty s critical urgent delayed minimal).total_cost
        = calculate_protocol_cost mass_casualty_protocol
            (critical - expectant_count critical) urgent delayed minimal
          + (expectant_count critical : ℚ) * 3 * EQUIPMENT_COSTS "morphine_dose"
    ∧ (doctrine_mass_casualty s critical urgent delayed minimal).equipment_preserved
        = equipment_preserved_map s.equipment_inventory
            (calculate_equipment_used mass_casualty_protocol
              (critical - expectant_count critical) urgent delayed minimal) := by
  refine ⟨expectant_count_eq_div critical, ?_, ?_, rfl, ?_, rfl⟩
  · rw [expectant_count_eq_div]
  · rw [expectant_count_eq_div]
  · show calculate_protocol_cost mass_casualty_protocol
        (critical - expectant_count critical) urgent delayed minimal
        + (expectant_count critical : ℚ) * EQUIPMENT_COSTS "morphine_dose" * 3 = _
    ring

theorem counts_scenario_c1 :
    count_severity scenario_c1 Severity.CRITICAL = 2
    ∧ count_severity scenario_c1 Severity.URGENT = 2
    ∧ count_severity scenario_c1 Severity.DELAYED = 2
    ∧ count_severity scenario_c1 Severity.MINIMAL = 1 :=
  ⟨rfl, rfl, rfl, rfl⟩

theorem gs_scenario_c1 :
    generate_strategies scenario_c1 =
      [doctrine_march_immediate scenario_c1 2 2 2 1,
       doctrine_prolonged_field_care scenario_c1 2 2 2 1,
       doctrine_surgical scenario_c1 2 2 2 1] := by
  have h2 : ¬ (scenario_c1.medevac_available ∧ scenario_c1.hours_until_resupply < 3) := by
    intro hx
    have h9 := hx.2
    norm_num [scenario_c1] at h9
  have h3 : scenario_c1.hours_until_resupply > 4 := by norm_num [scenario_c1]
  have h4 : scenario_c1.surgical_capability := by norm_num [scenario_c1]
  have h5 : ¬ (scenario_c1.expected_incoming_casualties > 20 ∨ (2 : ℕ) + 2 > 15) := by
    norm_num [scenario_c1]
  have h6 : ¬ (scenario_c1.hours_until_resupply > 12
      ∨ scenario_c1.expected_incoming_casualties > 30) := by
    norm_num [scenario_c1]
  rw [generate_strategies_normal, counts_scenario_c1.1, counts_scenario_c1.2.1,
    counts_scenario_c1.2.2.1, counts_scenario_c1.2.2.2,
    if_neg h2, if_pos h3, if_pos h4, if_neg h5, if_neg h6]
  simp

/-- Counterexample to C1: on the end-to-end scenario of the spec the selector
returns 3 strategies, not 4 (only Immediate Intervention, Prolonged Field
Care and Surgical Intervention pass their gates, exactly as the claim, in its own
gate-by-gate enumeration, says). -/
theorem C1_counterexample :
    (generate_strategies scenario_c1).length = 3
    ∧ ¬ (generate_strategies scenario_c1).length = 4 := by
  rw [gs_scenario_c1]
  norm_num

/-- C1 (amended): on the end-to-end scenario exactly 3 strategies are
returned — MARCH Immediate Intervention, Prolonged Field Care,
NATO Role 2 Surgical, in that order. -/
theorem C1_amended_three_strategies :
    (generate_strategies scenario_c1).map (fun st => st.name)
      = ["MARCH Immediate Intervention", "Prolonged Field Care",
         "NATO Role 2 Surgical"]
    ∧ (generate_strategies scenario_c1).length = 3 := by
  rw [gs_scenario_c1]
  constructor
  · simp [doctrine_march_immediate, doctrine_prolonged_field_care, doctrine_surgical]
  · norm_num

/-- C4: the `equipment_preserved` map of every strategy has exactly the inventory
key set (items consumed but absent from the inventory never appear); for
every inventory key, preserved + consumed = original inventory count, and
consumption above inventory makes the preserved value negative while
generation still succeeds (`generate_strategies` is total).  The last six
conjuncts identify the `equipment_preserved` of each generator with the shared
comprehension over its own consumption map and tier counts. -/
theorem C4_equipment_preserved_conservation :
    (∀ (s : Scenario) (st : MedicalStrategy), st ∈ generate_strategies s →
        st.equipment_preserved.map Prod.fst = s.equipment_inventory.map Prod.fst)
    ∧ (∀ (inv : List (String × Int)) (used : List (String × Nat)) (k : String),
        k ∈ inv.map Prod.fst →
          dictGetD (equipment_preserved_map inv used) k 0
              + ((dictGetD used k 0 : ℕ) : Int) = dictGetD inv k 0
          ∧ (dictGetD inv k 0 < ((dictGetD used k 0 : ℕ) : Int) →
              dictGetD (equipment_preserved_map inv used) k 0 < 0))
    ∧ (∀ (s : Scenario) (c u d m : Nat),
        (doctrine_march_immediate s c u d m).equipment_preserved
          = equipment_preserved_map s.equipment_inventory
              (calculate_equipment_used march_protocol c u d m)
        ∧ (doctrine_golden_hour s c u d m).equipment_preserved
          = equipment_preserved_map s.equipment_inventory
              (calculate_equipment_used golden_hour_protocol c u d m)
        ∧ (doctrine_prolonged_field_care s c u d m).equipment_preserved
          = equipment_preserved_map s.equipment_inventory
              (calculate_equipment_used prolonged_field_care_protocol c u d m)
        ∧ (doctrine_surgical s c u d m).equipment_preserved
          = equipment_preserved_map s.equipment_inventory
              (calculate_equipment_used surgical_protocol c u d m)
        ∧ (doctrine_mass_casualty s c u d m).equipment_preserved
          = equipment_preserved_map s.equipment_inventory
              (calculate_equipment_used mass_casualty_protocol
                (c - expectant_count c) u d m)
        ∧ (doctrine_siege_medicine s c u d m).equipment_preserved
          = equipment_preserved_map s.equipment_inventory
              (calculate_equipment_used siege_medicine_protocol c u d m)) := by
  refine ⟨?_, ?_, ?_⟩
  · intro s st h
    rcases mem_generate_strategies_cases s st h with h1 | h1 | h1 | h1 | h1 | h1 <;>
      subst h1 <;> exact keys_equipment_preserved_map _ _
  · intro inv used k hk
    rw [dictGetD_equipment_preserved_map inv used k hk]
    omega
  · intro s c u d m
    exact ⟨rfl, rfl, rfl, rfl, rfl, rfl⟩

/-- Witness for C4: concrete key-set equality, and the conservation equation
plus a negative reserve on a one-item inventory whose consumption (3)
exceeds stock (1). -/
theorem C4_witness :
    (doctrine_march_immediate scenario_w 0 0 0 0).equipment_preserved.map Prod.fst
        = scenario_w.equipment_inventory.map Prod.fst
    ∧ dictGetD (equipment_preserved_map [("tourniquet", 1)]
          [("tourniquet", 3)]) "tourniquet" 0
          + ((dictGetD [("tourniquet", 3)] "tourniquet" 0 : ℕ) : Int)
        = dictGetD [("tourniquet", 1)] "tourniquet" 0
    ∧ dictGetD (equipment_preserved_map [("tourniquet", 1)]
          [("tourniquet", 3)]) "tourniquet" 0 < 0 := by
  refine ⟨C4_equipment_preserved_conservation.1 scenario_w _
      (by rw [gs_scenario_w]; exact List.mem_singleton.mpr rfl), ?_, ?_⟩
  · exact (C4_equipment_preserved_conservation.2.1 [("tourniquet", 1)]
      [("tourniquet", 3)] "tourniquet" (by simp)).1
  · exact (C4_equipment_preserved_conservation.2.1 [("tourniquet", 1)]
      [("tourniquet", 3)] "tourniquet" (by simp)).2 (by decide)

theorem count_severity_filter_expectant (sev : Severity)
    (hsev : sev ≠ Severity.EXPECTANT) (l : List Casualty) :
    l.countP (fun c => decide (c.severity = sev))
      = (l.filter (fun c => decide (c.severity ≠ Severity.EXPECTANT))).countP
          (fun c => decide (c.severity = sev)) := by
  induction l with
  | nil => rfl
  | cons c rest ih =>
    by_cases h2 : c.severity = Severity.EXPECTANT
    · have h1 : ¬ (c.severity = sev) := by
        rw [h2]
        exact fun hx => hsev hx.symm
      simp [List.countP_cons, List.filter_cons, h1, h2, ih]
      exact fun hx => hsev hx.symm
    · simp [List.countP_cons, List.filter_cons, h2, ih]

/-- C10: two scenarios that agree on every field except the casualty list,
and whose non-expectant casualty sublists are equal, produce identical
strategy lists — EXPECTANT casualties contribute to no tier count,
applicability test, cost, consumption or reserve. -/
theorem C10_expectant_casualties_invisible
    (cas1 cas2 : List Casualty) (inv : List (String × Int)) (hrs : ℚ)
    (ex : Int) (mv sc : Bool)
    (hfil : cas1.filter (fun c => decide (c.severity ≠ Severity.EXPECTANT))
        = cas2.filter (fun c => decide (c.severity ≠ Severity.EXPECTANT))) :
    generate_strategies
        { casualties := cas1, equipment_inventory := inv,
          hours_until_resupply := hrs, expected_incoming_casualties := ex,
          medevac_available := mv, surgical_capability := sc }
      = generate_strategies
        { casualties := cas2, equipment_inventory := inv,
          hours_until_resupply := hrs, expected_incoming_casualties := ex,
          medevac_available := mv, surgical_capability := sc } := by
  have hcount : ∀ sev : Severity, sev ≠ Severity.EXPECTANT →
      count_severity ⟨cas1, inv, hrs, ex, mv, sc⟩ sev
        = count_severity ⟨cas2, inv, hrs, ex, mv, sc⟩ sev := by
    intro sev hsev
    show cas1.countP (fun c => decide (c.severity = sev))
        = cas2.countP (fun c => decide (c.severity = sev))
    rw [count_severity_filter_expectant sev hsev cas1, hfil,
      ← count_severity_filter_expectant sev hsev cas2]
  rw [generate_strategies_normal, generate_strategies_normal,
    hcount Severity.CRITICAL (by decide), hcount Severity.URGENT (by decide),
    hcount Severity.DELAYED (by decide), hcount Severity.MINIMAL (by decide)]
  rfl

/-- Witness for C10: adding one EXPECTANT casualty to an otherwise empty
scenario leaves the strategy list unchanged. -/
theorem C10_witness :
    generate_strategies
        ⟨[⟨Severity.EXPECTANT, [], 0.1⟩], [("tourniquet", 1)], 0, 0, false, false⟩
      = generate_strategies ⟨[], [("tourniquet", 1)], 0, 0, false, false⟩ :=
  C10_expectant_casualties_invisible _ _ _ _ _ _ _ rfl
theorem mem_names_iff (s : Scenario) (n : String) :
    n ∈ (generate_strategies s).map (fun st => st.name) ↔
      (n = "MARCH Immediate Intervention"
      ∨ (n = "Golden Hour Stabilization"
          ∧ (s.medevac_available ∧ s.hours_until_resupply < 3))
      ∨ (n = "Prolonged Field Care" ∧ s.hours_until_resupply > 4)
      ∨ (n = "NATO Role 2 Surgical" ∧ s.surgical_capability)
      ∨ (n = "Mass Casualty Protocol"
          ∧ (s.expected_incoming_casualties > 20
            ∨ count_severity s Severity.CRITICAL
                + count_severity s Severity.URGENT > 15))
      ∨ (n = "Siege Medicine"
          ∧ (s.hours_until_resupply > 12
            ∨ s.expected_incoming_casualties > 30))) := by
  rw [names_generate_strategies]
  constructor
  · intro h
    obtain ⟨x, hx, hname⟩ := List.mem_map.mp h
    obtain ⟨hmem, hpred⟩ := List.mem_filter.mp hx
    subst hname
    simp only [spec_doctrine_table, List.mem_cons, List.not_mem_nil,
      or_false] at hmem
    rcases hmem with h0 | h0 | h0 | h0 | h0 | h0 <;> subst h0
    · exact Or.inl rfl
    · refine Or.inr (Or.inl ⟨rfl, ?_⟩)
      simpa [Bool.and_eq_true, decide_eq_true_eq] using hpred
    · refine Or.inr (Or.inr (Or.inl ⟨rfl, ?_⟩))
      simpa [decide_eq_true_eq] using hpred
    · exact Or.inr (Or.inr (Or.inr (Or.inl ⟨rfl, hpred⟩)))
    · refine Or.inr (Or.inr (Or.inr (Or.inr (Or.inl ⟨rfl, ?_⟩))))
      simpa [Bool.or_eq_true, decide_eq_true_eq] using hpred
    · refine Or.inr (Or.inr (Or.inr (Or.inr (Or.inr ⟨rfl, ?_⟩))))
      simpa [Bool.or_eq_true, decide_eq_true_eq] using hpred
  · intro h
    refine List.mem_map.mpr ?_
    rcases h with h0 | ⟨h0, hp⟩ | ⟨h0, hp⟩ | ⟨h0, hp⟩ | ⟨h0, hp⟩ | ⟨h0, hp⟩ <;>
      subst h0
    · exact ⟨("MARCH Immediate Intervention", true),
        List.mem_filter.mpr ⟨by simp [spec_doctrine_table], rfl⟩, rfl⟩
    · exact ⟨("Golden Hour Stabilization",
          s.medevac_available && decide (s.hours_until_resupply < 3)),
        List.mem_filter.mpr ⟨by simp [spec_doctrine_table],
          by simpa [Bool.and_eq_true, decide_eq_true_eq] using hp⟩, rfl⟩
    · exact ⟨("Prolonged Field Care", decide (s.hours_until_resupply > 4)),
        List.mem_filter.mpr ⟨by simp [spec_doctrine_table],
          by simpa [decide_eq_true_eq] using hp⟩, rfl⟩
    · exact ⟨("NATO Role 2 Surgical", s.surgical_capability),
        List.mem_filter.mpr ⟨by simp [spec_doctrine_table], hp⟩, rfl⟩
    · exact ⟨("Mass Casualty Protocol",
          decide (s.expected_incoming_casualties > 20)
            || decide (count_severity s Severity.CRITICAL
                + count_severity s Severity.URGENT > 15)),
        List.mem_filter.mpr ⟨by simp [spec_doctrine_table],
          by simpa [Bool.or_eq_true, decide_eq_true_eq] using hp⟩, rfl⟩
    · exact ⟨("Siege Medicine",
          decide (s.hours_until_resupply > 12)
            || decide (s.expected_incoming_casualties > 30)),
        List.mem_filter.mpr ⟨by simp [spec_doctrine_table],
          by simpa [Bool.or_eq_true, decide_eq_true_eq] using hp⟩, rfl⟩

/-- Counterexample to C6: with medevac available and 2 h to resupply,
Evacuation Stabilization (Golden Hour) is applicable; replacing
`hours_until_resupply` by 13 (> 12) removes it from the result set, so
raising the resupply horizon past 12 h does not preserve every previously
applicable doctrine. -/
theorem C6_counterexample :
    (13 : ℚ) > 12
    ∧ "Golden Hour Stabilization"
        ∈ (generate_strategies scenario_c6).map (fun st => st.name)
    ∧ "Golden Hour Stabilization"
        ∉ (generate_strategies
            { scenario_c6 with hours_until_resupply := 13 }).map
              (fun st => st.name) := by
  refine ⟨by norm_num, ?_, ?_⟩
  · rw [mem_names_iff]
    refine Or.inr (Or.inl ⟨rfl, ?_, ?_⟩)
    · norm_num [scenario_c6]
    · norm_num [scenario_c6]
  · intro hmem
    rw [mem_names_iff] at hmem
    rcases hmem with h | ⟨h, hp⟩ | ⟨h, hp⟩ | ⟨h, hp⟩ | ⟨h, hp⟩ | ⟨h, hp⟩
    · exact absurd h (by decide)
    · have h13 : ({ scenario_c6 with hours_until_resupply := 13 } :
          Scenario).hours_until_resupply = 13 := rfl
      rw [h13] at hp
      exact absurd hp.2 (by norm_num)
    · exact absurd h (by decide)
    · exact absurd h (by decide)
    · exact absurd h (by decide)
    · exact absurd h (by decide)

/-- C6 (amended): for every scenario and every `h > 12`, replacing
`hours_until_resupply` by `h` makes Extreme Conservation (Siege Medicine)
applicable, and every applicable doctrine other than Evacuation
Stabilization (whose predicate requires under 3 h) remains applicable. -/
theorem C6_amended_monotonic (s : Scenario) (h : ℚ) (hh : h > 12) :
    "Siege Medicine" ∈ (generate_strategies
        { s with hours_until_resupply := h }).map (fun st => st.name)
    ∧ ∀ n, n ∈ (generate_strategies s).map (fun st => st.name) →
        n ≠ "Golden Hour Stabilization" →
        n ∈ (generate_strategies
          { s with hours_until_resupply := h }).map (fun st => st.name) := by
  obtain ⟨cas, inv, hrs, ex, mv, sc⟩ := s
  constructor
  · rw [mem_names_iff]
    exact Or.inr (Or.inr (Or.inr (Or.inr (Or.inr ⟨rfl, Or.inl hh⟩))))
  · intro n hn hne
    rw [mem_names_iff] at hn ⊢
    rcases hn with h0 | ⟨h0, hp⟩ | ⟨h0, hp⟩ | ⟨h0, hp⟩ | ⟨h0, hp⟩ | ⟨h0, hp⟩
    · exact Or.inl h0
    · exact absurd h0 hne
    · refine Or.inr (Or.inr (Or.inl ⟨h0, ?_⟩))
      show h > 4
      linarith
    · exact Or.inr (Or.inr (Or.inr (Or.inl ⟨h0, hp⟩)))
    · exact Or.inr (Or.inr (Or.inr (Or.inr (Or.inl ⟨h0, hp⟩))))
    · refine Or.inr (Or.inr (Or.inr (Or.inr (Or.inr ⟨h0, Or.inl ?_⟩))))
      show h > 12
      exact hh

/-- Witness for C6 (amended) at the Golden-Hour scenario raised to 13 h. -/
theorem C6_witness :
    "Siege Medicine" ∈ (generate_strategies
        { scenario_c6 with hours_until_resupply := 13 }).map (fun st => st.name)
    ∧ ∀ n, n ∈ (generate_strategies scenario_c6).map (fun st => st.name) →
        n ≠ "Golden Hour Stabilization" →
        n ∈ (generate_strategies
          { scenario_c6 with hours_until_resupply := 13 }).map
            (fun st => st.name) :=
  C6_amended_monotonic scenario_c6 13 (by norm_num)

/-- Counterexample to C8: on an (accepted) scenario with no current
casualties, after an ARBITER failure the fallback heuristic divides by
`estimated_survival_rate * len(casualties) = 0` (`ZeroDivisionError`,
modelled as `none`), so the caller does not receive a ranked list and the
failure surfaces as a hard error. -/
theorem C8_counterexample :
    simulate_coherence_fallback scenario_c8 (generate_strategies scenario_c8)
      = none := by
  have hgs : generate_strategies scenario_c8
      = [doctrine_march_immediate scenario_c8 0 0 0 0] := by
    rw [generate_strategies_normal]
    norm_num [scenario_c8, count_severity]
  have hb : qdiv ((sum_preserved (doctrine_march_immediate scenario_c8 0 0 0 0) :
        Int) : ℚ) ((sum_inventory scenario_c8 : Int) : ℚ)
      = some (((sum_preserved (doctrine_march_immediate scenario_c8 0 0 0 0) :
          Int) : ℚ) / ((sum_inventory scenario_c8 : Int) : ℚ)) := by
    have h10 : (sum_inventory scenario_c8 : Int) = 10 := rfl
    rw [qdiv.eq_1, h10]
    norm_num
  have hcj : qdiv (doctrine_march_immediate scenario_c8 0 0 0 0).total_cost
      ((doctrine_march_immediate scenario_c8 0 0 0 0).estimated_survival_rate
        * (scenario_c8.casualties.length : ℚ)) = none := by
    have hlen : ((scenario_c8.casualties.length : ℕ) : ℚ) = 0 := by
      norm_num [scenario_c8]
    rw [hlen, mul_zero, qdiv.eq_1, if_pos rfl]
  have hscore : fallback_score scenario_c8
      (doctrine_march_immediate scenario_c8 0 0 0 0) = none := by
    simp only [fallback_score, hb, hcj]
  rw [hgs]
  simp [simulate_coherence_fallback, hscore]

theorem survival_rate_pos (s : Scenario) (st : MedicalStrategy)
    (h : st ∈ generate_strategies s) : 0 < st.estimated_survival_rate := by
  rcases mem_generate_strategies_cases s st h with h1 | h1 | h1 | h1 | h1 | h1 <;>
    subst h1
  · show (0 : ℚ) < 0.92
    norm_num
  · show (0 : ℚ) < 0.88
    norm_num
  · show (0 : ℚ) < 0.85
    norm_num
  · show (0 : ℚ) < 0.94
    norm_num
  · show (0 : ℚ) < 0.68
    norm_num
  · show (0 : ℚ) < 0.62
    norm_num

theorem fallback_score_some (s : Scenario) (st : MedicalStrategy)
    (hc : s.casualties ≠ []) (hi : sum_inventory s ≠ 0)
    (hr : 0 < st.estimated_survival_rate) :
    ∃ y, fallback_score s st = some y ∧ 0 ≤ y ∧ y ≤ 1 := by
  have hb : ((sum_inventory s : Int) : ℚ) ≠ 0 := by exact_mod_cast hi
  have hlen : ((s.casualties.length : ℕ) : ℚ) ≠ 0 := by
    have h0 : s.casualties.length ≠ 0 := by
      intro h1
      exact hc (List.length_eq_zero.mp h1)
    exact_mod_cast h0
  have hd : st.estimated_survival_rate * (s.casualties.length : ℚ) ≠ 0 :=
    mul_ne_zero (ne_of_gt hr) hlen
  have h1 : qdiv ((sum_preserved st : Int) : ℚ) ((sum_inventory s : Int) : ℚ)
      = some (((sum_preserved st : Int) : ℚ) / ((sum_inventory s : Int) : ℚ)) := by
    simp [qdiv, hb]
  have h2 : qdiv st.total_cost
      (st.estimated_survival_rate * (s.casualties.length : ℚ))
      = some (st.total_cost
          / (st.estimated_survival_rate * (s.casualties.length : ℚ))) := by
    simp [qdiv, hd]
  simp only [fallback_score, h1, h2]
  refine ⟨_, rfl, ?_, ?_⟩
  · exact le_min (by norm_num) (le_max_left 0 _)
  · exact min_le_left 1 _

theorem simulate_fallback_some (s : Scenario) (l : List MedicalStrategy)
    (hc : s.casualties ≠ []) (hi : sum_inventory s ≠ 0)
    (hall : ∀ st ∈ l, 0 < st.estimated_survival_rate) :
    ∃ scores, simulate_coherence_fallback s l = some scores
      ∧ scores.length = l.length
      ∧ ∀ x ∈ scores, 0 ≤ x ∧ x ≤ 1 := by
  induction l with
  | nil => exact ⟨[], rfl, rfl, by simp⟩
  | cons st rest ih =>
    obtain ⟨y, hy, hy0, hy1⟩ := fallback_score_some s st hc hi
      (hall st (List.mem_cons_self st rest))
    obtain ⟨ys, hys, hlen, hbnd⟩ :=
      ih (fun st2 h2 => hall st2 (List.mem_cons_of_mem st h2))
    refine ⟨y :: ys, ?_, ?_, ?_⟩
    · simp [simulate_coherence_fallback, hy, hys]
    · simp [hlen]
    · intro x hx
      rcases List.mem_cons.mp hx with h3 | h3
      · rw [h3]
        exact ⟨hy0, hy1⟩
      · exact hbnd x h3

/-- C8 (amended): for every scenario with at least one current casualty and a
non-zero inventory total, the local fallback heuristic assigns every
generated strategy a score in [0, 1] without raising, so after an ARBITER
failure the caller still receives a fully ranked list. -/
theorem C8_amended_fallback_total (s : Scenario)
    (hc : s.casualties ≠ []) (hi : sum_inventory s ≠ 0) :
    ∃ scores, simulate_coherence_fallback s (generate_strategies s) = some scores
      ∧ scores.length = (generate_strategies s).length
      ∧ ∀ x ∈ scores, 0 ≤ x ∧ x ≤ 1 :=
  simulate_fallback_some s (generate_strategies s) hc hi
    (fun st h => survival_rate_pos s st h)

/-- Witness for C8 (amended) at a concrete one-casualty scenario. -/
theorem C8_witness :
    ∃ scores, simulate_coherence_fallback scenario_c8w
        (generate_strategies scenario_c8w) = some scores
      ∧ scores.length = (generate_strategies scenario_c8w).length
      ∧ ∀ x ∈ scores, 0 ≤ x ∧ x ≤ 1 :=
  C8_amended_fallback_total scenario_c8w (by decide) (by decide)
